import Mathlib

/-!
Verification development for the PMG intake PDF subsystem (src/src/App.tsx).

The embedding models the template-based PDF filling and packet assembly
code: a PDF page is the list of drawing operations placed on it, a byte
buffer is either a parseable PDF (carrying its pages) or an opaque
malformed buffer, and the browser environment (fetch outcomes, PNG
decodability of signature payloads) is an explicit parameter.  The module
level DEBUG constant of the source is threaded as an explicit boolean.
-/

namespace PMG

/-- One drawing operation on a PDF page (pdf-lib drawText / drawImage /
drawRectangle, jsPDF text / addImage / line).  Text carries the string,
position, font size, and the optional maxWidth and lineHeight options. -/
inductive PdfOp where
  | text (s : String) (x y size : Int) (maxWidth : Option Int) (lineHeight : Option Int)
  | image (data : String) (x y w h : Int)
  | rect (x y w h : Int)
  | drawnLine (x1 y1 x2 y2 color : Int)
  deriving DecidableEq

/-- A page is the ordered list of operations drawn on it. -/
abbrev Page := List PdfOp

/-- A byte buffer: either an opaque buffer that does not parse as a PDF, or
a parseable PDF identified with its page list. -/
inductive Bytes where
  | malformed (tag : Nat)
  | pdf (pages : List Page)
  deriving DecidableEq

/-- Runtime faults of the generation pipeline: a PDFDocument.load failure,
an access to page 0 of a document with no pages, a jsPDF addImage failure
on an undecodable image, and an undefined-property access (reading `f.x`
when the field-map lookup returned undefined). -/
inductive JsError where
  | malformedDocument
  | missingPage
  | embedFailure
  | undefinedField
  deriving DecidableEq

/-- Outcome of the raw `fetch(path)` call inside fetchTemplate: an ok
response with a body, a non-ok HTTP response, or a thrown network/read
exception. -/
inductive FetchOutcome where
  | success (bytes : Bytes)
  | httpError
  | threw
  deriving DecidableEq

/-- The browser environment the subsystem runs in: what fetching each path
yields, and which image strings decode as PNG (used by pdf-lib embedPng and
by jsPDF addImage). -/
structure Env where
  fetchRaw : String → FetchOutcome
  pngOk : String → Bool

/-- JavaScript `a || b` on strings: the empty string is falsy. -/
def jsOr (a b : String) : String := if a == "" then b else a

/-- JavaScript `a || b` where `a` is an optional number (`undefined` and
`0` are falsy). -/
def orDefault (a : Option Int) (b : Int) : Int :=
  match a with
  | some v => if v == 0 then b else v
  | none => b

/-- JavaScript truthiness of a string. -/
def truthy : String → Bool
  | "" => false
  | _ => true

/-- JavaScript String.prototype.trim: strip leading and trailing
whitespace (written over the character list so that it evaluates). -/
def jsTrim (s : String) : String :=
  String.mk (((s.data.dropWhile Char.isWhitespace).reverse.dropWhile Char.isWhitespace).reverse)

/-- A field anchor of a field map: `{ x, y, size?, page?, w? }`. -/
structure FieldAnchor where
  x : Int
  y : Int
  size : Option Int := none
  page : Option Int := none
  w : Option Int := none
  deriving DecidableEq

/-- Property access on a field-map entry that is known to be present
(`MAP.sign.x` and similar direct accesses in the source); every key used
this way is declared in its map, so the default is never reached. -/
def anc (o : Option FieldAnchor) : FieldAnchor := o.getD { x := 0, y := 0 }

/-- MAP_REGISTRATION, as the string-keyed object it is in the source. -/
def MAP_REGISTRATION : String → Option FieldAnchor
  | "name" => some { x := 120, y := 700 }
  | "dob" => some { x := 120, y := 682 }
  | "sex" => some { x := 370, y := 682 }
  | "marital" => some { x := 470, y := 682 }
  | "ssn" => some { x := 470, y := 700 }
  | "email" => some { x := 120, y := 664, w := some 300 }
  | "phones" => some { x := 120, y := 646, w := some 420 }
  | "address" => some { x := 120, y := 628, w := some 420 }
  | "employer" => some { x := 120, y := 610, w := some 420 }
  | "insuredPerson" => some { x := 160, y := 556, w := some 200 }
  | "insuredDob" => some { x := 440, y := 556 }
  | "primaryIns" => some { x := 160, y := 538, w := some 260 }
  | "memberId" => some { x := 120, y := 520 }
  | "groupNo" => some { x := 320, y := 520 }
  | "copay" => some { x := 470, y := 520 }
  | "emergencyName" => some { x := 140, y := 470 }
  | "emergencyRelation" => some { x := 380, y := 470 }
  | "emergencyPhones" => some { x := 140, y := 452, w := some 360 }
  | "sign" => some { x := 90, y := 120, w := some 180 }
  | "signDate" => some { x := 320, y := 120 }
  | _ => none

/-- MAP_HHX (health history), string keyed. -/
def MAP_HHX : String → Option FieldAnchor
  | "name" => some { x := 120, y := 700 }
  | "dob" => some { x := 470, y := 700 }
  | "medicalProblems" => some { x := 50, y := 640, w := some 500 }
  | "surgeries" => some { x := 50, y := 580, w := some 500 }
  | "hospitalizations" => some { x := 50, y := 520, w := some 500 }
  | "medications" => some { x := 50, y := 460, w := some 500 }
  | "allergies" => some { x := 50, y := 400, w := some 500 }
  | "lifestyle1" => some { x := 50, y := 340, w := some 500 }
  | "other" => some { x := 50, y := 280, w := some 500 }
  | "sign" => some { x := 90, y := 120 }
  | "signDate" => some { x := 320, y := 120 }
  | _ => none

/-- MAP_FP (financial policy); only ever accessed by fixed keys. -/
structure MapFP where
  initials : FieldAnchor
  sign : FieldAnchor
  signDate : FieldAnchor

def MAP_FP : MapFP :=
  { initials := { x := 80, y := 300 }
    sign := { x := 90, y := 120 }
    signDate := { x := 320, y := 120 } }

/-- MAP_ROI (release of information); only ever accessed by fixed keys. -/
structure MapROI where
  spouse : FieldAnchor
  children : FieldAnchor
  vmHome : FieldAnchor
  vmCell : FieldAnchor
  vmWork : FieldAnchor
  other : FieldAnchor
  auth1 : FieldAnchor
  auth2 : FieldAnchor
  auth3 : FieldAnchor
  sign : FieldAnchor
  signDate : FieldAnchor

def MAP_ROI : MapROI :=
  { spouse := { x := 150, y := 620 }
    children := { x := 340, y := 620 }
    vmHome := { x := 150, y := 600 }
    vmCell := { x := 230, y := 600 }
    vmWork := { x := 310, y := 600 }
    other := { x := 100, y := 582, w := some 420 }
    auth1 := { x := 50, y := 540, w := some 500 }
    auth2 := { x := 50, y := 524, w := some 500 }
    auth3 := { x := 50, y := 508, w := some 500 }
    sign := { x := 90, y := 120 }
    signDate := { x := 320, y := 120 } }

/-- MAP_HIPAA (privacy acknowledgement). -/
structure MapHIPAA where
  ack : FieldAnchor
  sign : FieldAnchor
  signDate : FieldAnchor

def MAP_HIPAA : MapHIPAA :=
  { ack := { x := 60, y := 640, w := some 500 }
    sign := { x := 90, y := 120 }
    signDate := { x := 320, y := 120 } }

/-- MAP_COC (code of conduct). -/
structure MapCOC where
  ack : FieldAnchor
  sign : FieldAnchor
  signDate : FieldAnchor

def MAP_COC : MapCOC :=
  { ack := { x := 80, y := 300 }
    sign := { x := 90, y := 120 }
    signDate := { x := 320, y := 120 } }

/-- pdf-lib page.drawText. -/
def drawText (page : Page) (s : String) (x y size : Int)
    (maxWidth lineHeight : Option Int) : Page :=
  page ++ [PdfOp.text s x y size maxWidth lineHeight]

/-- pdf-lib page.drawImage (for the embedded signature PNG). -/
def drawImage (page : Page) (data : String) (x y w h : Int) : Page :=
  page ++ [PdfOp.image data x y w h]

/-- drawBox: draws the calibration rectangle only when DEBUG is set. -/
def drawBox (debug : Bool) (page : Page) (x y : Int)
    (w : Int := 140) (h : Int := 14) : Page :=
  if debug then page ++ [PdfOp.rect x (y - 2) w h] else page

/-- fetchTemplate: try/fetch; `null` on a non-ok response or on a thrown
exception, otherwise the raw bytes of the body (no validation). -/
def fetchTemplate (env : Env) (path : String) : Option Bytes :=
  match env.fetchRaw path with
  | .success b => some b
  | .httpError => none
  | .threw => none

/-- PDFDocument.load: parses a buffer, throwing on a malformed one. -/
def PDFDocument_load : Bytes → Except JsError (List Page)
  | .malformed _ => .error .malformedDocument
  | .pdf pages => .ok pages

/-- pdf.getPages()[0] followed by drawing on it: faults when the document
has no pages (the page is undefined). -/
def getPage0 : List Page → Except JsError Page
  | [] => .error .missingPage
  | p :: _ => .ok p

/-- Write back the mutated first page of a loaded document. -/
def setPage0 : List Page → Page → List Page
  | [], q => [q]
  | _ :: rest, q => q :: rest

/-- pdf.save(): serializes the document. -/
def pdfSave (pages : List Page) : Bytes := .pdf pages

/-- The voicemail-permission booleans of mayContact.phones. -/
structure Phones where
  home : Bool := false
  cell : Bool := false
  work : Bool := false
  deriving DecidableEq

/-- The mayContact sub-record of the intake data. -/
structure MayContact where
  spouse : Bool := false
  children : Bool := false
  phones : Phones := {}
  other : String := ""
  deriving DecidableEq

/-- One authorized contact tuple. -/
structure Contact where
  name : String := ""
  relationship : String := ""
  phone : String := ""
  deriving DecidableEq

/-- The intake record (the `emptyData` shape of the source); defaults are
the `emptyData` initial values. -/
structure IntakeData where
  firstName : String := ""
  lastName : String := ""
  middle : String := ""
  suffix : String := ""
  dob : String := ""
  sex : String := ""
  maritalStatus : String := ""
  ssn : String := ""
  email : String := ""
  phoneCell : String := ""
  phoneHome : String := ""
  address : String := ""
  city : String := ""
  state : String := ""
  zip : String := ""
  employer : String := ""
  employerPhone : String := ""
  preferredContact : String := ""
  race : String := ""
  ethnicity : String := ""
  language : String := ""
  insuredPerson : String := ""
  insuredDob : String := ""
  primaryInsurance : String := ""
  memberId : String := ""
  groupNo : String := ""
  copay : String := ""
  relationshipToSubscriber : String := ""
  secondaryInsurance : String := ""
  emergencyName : String := ""
  emergencyRelation : String := ""
  emergencyHome : String := ""
  emergencyWork : String := ""
  medicalProblems : String := ""
  surgeries : String := ""
  hospitalizations : String := ""
  medications : String := ""
  allergies : String := ""
  exerciseLevel : String := ""
  diet : String := ""
  alcohol : String := ""
  tobacco : String := ""
  drugs : String := ""
  mentalHealth : String := ""
  womensHealth : String := ""
  mensHealth : String := ""
  otherProblems : String := ""
  mayContact : MayContact := {}
  authorizedContacts : List Contact := [{}]
  initialPolicies : Bool := false
  ackPrivacy : Bool := false
  ackCodeOfConduct : Bool := false
  signatureDataUrl : String := ""
  signatureDate : String := ""
  deriving DecidableEq

/-- The initial record of a session. -/
def emptyData : IntakeData := {}

/-- The registration filler helper `write`: looks the key up in
MAP_REGISTRATION and silently returns when it is absent. -/
def write (debug : Bool) (page : Page) (key : String) (text : String) : Page :=
  match MAP_REGISTRATION key with
  | none => page
  | some f =>
    let y := f.y
    let x := f.x
    let page := drawBox debug page x y
    drawText page (jsOr text "") x y (orDefault f.size 10) (some (orDefault f.w 200)) none

/-- fillRegistrationWithTemplate: none when the template is not fetched,
otherwise the filled document. -/
def fillRegistrationWithTemplate (env : Env) (debug : Bool) (data : IntakeData) :
    Except JsError (Option Bytes) :=
  match fetchTemplate env "/templates/1_Office_Registration.pdf" with
  | none => .ok none
  | some bytes => do
    let pdf ← PDFDocument_load bytes
    let page ← getPage0 pdf
    let page := write debug page "name" (jsTrim (data.lastName ++ ", " ++ data.firstName ++ " " ++ jsOr data.middle ""))
    let page := write debug page "dob" data.dob
    let page := write debug page "sex" data.sex
    let page := write debug page "marital" data.maritalStatus
    let page := write debug page "ssn" data.ssn
    let page := write debug page "email" data.email
    let page := write debug page "phones" (jsOr data.phoneCell "" ++ " (cell)  " ++ jsOr data.phoneHome "" ++ " (home)")
    let page := write debug page "address" (jsTrim (data.address ++ ", " ++ data.city ++ ", " ++ data.state ++ " " ++ data.zip))
    let page := write debug page "employer" (jsTrim (data.employer ++ "  |  " ++ data.employerPhone))
    let page := write debug page "insuredPerson" data.insuredPerson
    let page := write debug page "insuredDob" data.insuredDob
    let page := write debug page "primaryIns" data.primaryInsurance
    let page := write debug page "memberId" data.memberId
    let page := write debug page "groupNo" data.groupNo
    let page := write debug page "copay" (if truthy data.copay then "$" ++ data.copay else "")
    let page := write debug page "emergencyName" data.emergencyName
    let page := write debug page "emergencyRelation" data.emergencyRelation
    let page := write debug page "emergencyPhones" (jsTrim (data.emergencyHome ++ " / " ++ data.emergencyWork))
    let page :=
      if truthy data.signatureDataUrl then
        if env.pngOk data.signatureDataUrl then
          drawImage page data.signatureDataUrl (anc (MAP_REGISTRATION "sign")).x
            (anc (MAP_REGISTRATION "sign")).y 180 40
        else page
      else page
    let page := drawText page (jsOr data.signatureDate "") (anc (MAP_REGISTRATION "signDate")).x
      (anc (MAP_REGISTRATION "signDate")).y 10 none none
    .ok (some (pdfSave (setPage0 pdf page)))

/-- The health-history filler helper `w`: reads `f.x` on the looked-up
entry without checking for absence, so a missing key faults. -/
def w (debug : Bool) (page : Page) (k : String) (t : String) : Except JsError Page :=
  match MAP_HHX k with
  | none => .error .undefinedField
  | some f =>
    let page := drawBox debug page f.x f.y (orDefault f.w 300)
    .ok (drawText page (jsOr t "") f.x f.y (orDefault f.size 10) (some (orDefault f.w 300)) (some 12))

/-- fillHealthHistoryWithTemplate. -/
def fillHealthHistoryWithTemplate (env : Env) (debug : Bool) (data : IntakeData) :
    Except JsError (Option Bytes) :=
  match fetchTemplate env "/templates/2_Health_History.pdf" with
  | none => .ok none
  | some bytes => do
    let pdf ← PDFDocument_load bytes
    let page ← getPage0 pdf
    let page ← w debug page "name" (data.lastName ++ ", " ++ data.firstName)
    let page ← w debug page "dob" data.dob
    let page ← w debug page "medicalProblems" data.medicalProblems
    let page ← w debug page "surgeries" data.surgeries
    let page ← w debug page "hospitalizations" data.hospitalizations
    let page ← w debug page "medications" data.medications
    let page ← w debug page "allergies" data.allergies
    let page ← w debug page "lifestyle1" ("Exercise: " ++ jsOr data.exerciseLevel "—" ++ "; Diet: " ++ jsOr data.diet "—" ++ "; Alcohol: " ++ jsOr data.alcohol "—" ++ "; Tobacco: " ++ jsOr data.tobacco "—" ++ "; Drugs: " ++ jsOr data.drugs "—")
    let page ← w debug page "other" data.otherProblems
    let page :=
      if truthy data.signatureDataUrl then
        if env.pngOk data.signatureDataUrl then
          drawImage page data.signatureDataUrl (anc (MAP_HHX "sign")).x (anc (MAP_HHX "sign")).y 180 40
        else page
      else page
    let page := drawText page (jsOr data.signatureDate "") (anc (MAP_HHX "signDate")).x
      (anc (MAP_HHX "signDate")).y 10 none none
    .ok (some (pdfSave (setPage0 pdf page)))

/-- fillFinancialPolicyWithTemplate. -/
def fillFinancialPolicyWithTemplate (env : Env) (debug : Bool) (data : IntakeData) :
    Except JsError (Option Bytes) :=
  match fetchTemplate env "/templates/3_Financial_Policy.pdf" with
  | none => .ok none
  | some b => do
    let pdf ← PDFDocument_load b
    let page ← getPage0 pdf
    let page :=
      if data.initialPolicies then
        let page := drawBox debug page MAP_FP.initials.x MAP_FP.initials.y
        drawText page "✔" MAP_FP.initials.x MAP_FP.initials.y 10 none none
      else page
    let page :=
      if truthy data.signatureDataUrl then
        if env.pngOk data.signatureDataUrl then
          drawImage page data.signatureDataUrl MAP_FP.sign.x MAP_FP.sign.y 180 40
        else page
      else page
    let page := drawText page (jsOr data.signatureDate "") MAP_FP.signDate.x MAP_FP.signDate.y 10 none none
    .ok (some (pdfSave (setPage0 pdf page)))

/-- The release-of-information `check` helper: a check glyph when the flag
is on, plus a calibration rectangle in debug mode. -/
def check (debug : Bool) (page : Page) (flag : Bool) (x y : Int) : Page :=
  let page := if flag then drawText page "✔" x y 10 none none else page
  if debug then drawBox debug page x y 12 12 else page

/-- The release-of-information contact formatter `fmt`. -/
def fmt (c : Contact) : String :=
  jsTrim (jsOr c.name "" ++ " | " ++ jsOr c.relationship "" ++ " | " ++ jsOr c.phone "")

/-- fillReleaseInfoWithTemplate. -/
def fillReleaseInfoWithTemplate (env : Env) (debug : Bool) (data : IntakeData) :
    Except JsError (Option Bytes) :=
  match fetchTemplate env "/templates/4_Release_of_Information.pdf" with
  | none => .ok none
  | some b => do
    let pdf ← PDFDocument_load b
    let page ← getPage0 pdf
    let page := check debug page data.mayContact.spouse MAP_ROI.spouse.x MAP_ROI.spouse.y
    let page := check debug page data.mayContact.children MAP_ROI.children.x MAP_ROI.children.y
    let page := check debug page data.mayContact.phones.home MAP_ROI.vmHome.x MAP_ROI.vmHome.y
    let page := check debug page data.mayContact.phones.cell MAP_ROI.vmCell.x MAP_ROI.vmCell.y
    let page := check debug page data.mayContact.phones.work MAP_ROI.vmWork.x MAP_ROI.vmWork.y
    let page := drawText page (jsOr data.mayContact.other "") MAP_ROI.other.x MAP_ROI.other.y 10 MAP_ROI.other.w none
    let list := data.authorizedContacts
    let page := drawText page (fmt (list.getD 0 {})) MAP_ROI.auth1.x MAP_ROI.auth1.y 10 MAP_ROI.auth1.w none
    let page := drawText page (fmt (list.getD 1 {})) MAP_ROI.auth2.x MAP_ROI.auth2.y 10 MAP_ROI.auth2.w none
    let page := drawText page (fmt (list.getD 2 {})) MAP_ROI.auth3.x MAP_ROI.auth3.y 10 MAP_ROI.auth3.w none
    let page :=
      if truthy data.signatureDataUrl then
        if env.pngOk data.signatureDataUrl then
          drawImage page data.signatureDataUrl MAP_ROI.sign.x MAP_ROI.sign.y 180 40
        else page
      else page
    let page := drawText page (jsOr data.signatureDate "") MAP_ROI.signDate.x MAP_ROI.signDate.y 10 none none
    .ok (some (pdfSave (setPage0 pdf page)))

/-- fillPrivacyAckWithTemplate: writes an acknowledgement sentence at the
ack anchor, chosen by the ackPrivacy flag. -/
def fillPrivacyAckWithTemplate (env : Env) (debug : Bool) (data : IntakeData) :
    Except JsError (Option Bytes) :=
  match fetchTemplate env "/templates/5.5_Acknowledgement_of_Privacy_Policy.pdf" with
  | none => .ok none
  | some b => do
    let pdf ← PDFDocument_load b
    let page ← getPage0 pdf
    let line1 :=
      if data.ackPrivacy then
        "I acknowledge I received or had the opportunity to review the Notice of Privacy Practices."
      else "Acknowledgement pending (not checked)."
    let page :=
      if debug then drawBox debug page MAP_HIPAA.ack.x MAP_HIPAA.ack.y (MAP_HIPAA.ack.w.getD 140) 28
      else page
    let page := drawText page line1 MAP_HIPAA.ack.x MAP_HIPAA.ack.y 10 MAP_HIPAA.ack.w none
    let page :=
      if truthy data.signatureDataUrl then
        if env.pngOk data.signatureDataUrl then
          drawImage page data.signatureDataUrl MAP_HIPAA.sign.x MAP_HIPAA.sign.y 180 40
        else page
      else page
    let page := drawText page (jsOr data.signatureDate "") MAP_HIPAA.signDate.x MAP_HIPAA.signDate.y 10 none none
    .ok (some (pdfSave (setPage0 pdf page)))

/-- fillCodeOfConductWithTemplate. -/
def fillCodeOfConductWithTemplate (env : Env) (debug : Bool) (data : IntakeData) :
    Except JsError (Option Bytes) :=
  match fetchTemplate env "/templates/PMG_Patient_Code_of_Conduct_March_2025_1.pdf" with
  | none => .ok none
  | some b => do
    let pdf ← PDFDocument_load b
    let page ← getPage0 pdf
    let page :=
      if data.ackCodeOfConduct then
        let page := if debug then drawBox debug page MAP_COC.ack.x MAP_COC.ack.y else page
        drawText page "✔" MAP_COC.ack.x MAP_COC.ack.y 10 none none
      else page
    let page :=
      if truthy data.signatureDataUrl then
        if env.pngOk data.signatureDataUrl then
          drawImage page data.signatureDataUrl MAP_COC.sign.x MAP_COC.sign.y 180 40
        else page
      else page
    let page := drawText page (jsOr data.signatureDate "") MAP_COC.signDate.x MAP_COC.signDate.y 10 none none
    .ok (some (pdfSave (setPage0 pdf page)))

/-- A jsPDF document under construction: the current font size and draw
color (both affect the bytes of later operations) and the operations drawn
so far on its single page.  `new jsPDF()` starts at font size 16 and black
draw color. -/
structure JsDoc where
  fontSize : Int := 16
  drawColor : Int := 0
  ops : List PdfOp := []
  deriving DecidableEq

/-- jsPDF doc.setFontSize. -/
def JsDoc.setFontSize (d : JsDoc) (s : Int) : JsDoc := { d with fontSize := s }

/-- jsPDF doc.setDrawColor. -/
def JsDoc.setDrawColor (d : JsDoc) (c : Int) : JsDoc := { d with drawColor := c }

/-- jsPDF doc.text at the current font size. -/
def JsDoc.text (d : JsDoc) (s : String) (x y : Int) (maxWidth : Option Int := none) : JsDoc :=
  { d with ops := d.ops ++ [PdfOp.text s x y d.fontSize maxWidth none] }

/-- jsPDF doc.line in the current draw color. -/
def JsDoc.line (d : JsDoc) (x1 y1 x2 y2 : Int) : JsDoc :=
  { d with ops := d.ops ++ [PdfOp.drawnLine x1 y1 x2 y2 d.drawColor] }

/-- jsPDF doc.addImage: throws when the image string does not decode; not
wrapped in any try/catch at its call sites in the fallback builders. -/
def JsDoc.addImage (env : Env) (d : JsDoc) (dataUrl _imgFormat : String)
    (x y wd h : Int) : Except JsError JsDoc :=
  if env.pngOk dataUrl then
    .ok { d with ops := d.ops ++ [PdfOp.image dataUrl x y wd h] }
  else .error .embedFailure

/-- jsPDF doc.output("arraybuffer"): one page holding the drawn ops. -/
def JsDoc.output (d : JsDoc) : Bytes := .pdf [d.ops]

/-- The jsPDF `line` helper: label at x=14, optional value at x=100. -/
def line (doc : JsDoc) (y : Int) (label : String) (value : String := "") : JsDoc :=
  let doc := doc.setFontSize 11
  let doc := doc.text label 14 y
  if truthy value then doc.text value 100 y (some 95) else doc

/-- The jsPDF `pdfHeader` helper. -/
def pdfHeader (doc : JsDoc) (title : String) : JsDoc :=
  let doc := doc.setFontSize 16
  let doc := doc.text "Prestige Medical Group" 14 18
  let doc := doc.setFontSize 12
  let doc := doc.text title 14 26
  let doc := doc.setDrawColor 200
  doc.line 14 28 200 28

/-- buildRegistrationPDF_fallback (generic jsPDF registration form). -/
def buildRegistrationPDF_fallback (env : Env) (data : IntakeData) : Except JsError Bytes :=
  let doc : JsDoc := {}
  let doc := pdfHeader doc "Registration Form (POC)"
  let y : Int := 36
  let doc := line doc y ("Patient: " ++ data.lastName ++ ", " ++ data.firstName ++ " " ++ jsOr data.middle "")
  let y := y + 8
  let doc := line doc y "DOB:" data.dob
  let y := y + 8
  let doc := line doc y "Sex:" data.sex
  let y := y + 8
  let doc := line doc y "Marital Status:" data.maritalStatus
  let y := y + 8
  let doc := line doc y "SSN:" data.ssn
  let y := y + 8
  let doc := line doc y "Email:" data.email
  let y := y + 8
  let doc := line doc y "Phones:" (jsOr data.phoneCell "" ++ " (cell)  " ++ jsOr data.phoneHome "" ++ " (home)")
  let y := y + 8
  let doc := line doc y "Address:" (data.address ++ ", " ++ data.city ++ ", " ++ data.state ++ " " ++ data.zip)
  let y := y + 8
  let doc := line doc y "Employer:" (data.employer ++ "  |  " ++ data.employerPhone)
  let y := y + 12
  let doc := doc.setFontSize 12
  let doc := doc.text "Insurance" 14 y
  let y := y + 6
  let doc := line doc y "Person Responsible:" data.insuredPerson
  let y := y + 8
  let doc := line doc y "DOB:" data.insuredDob
  let y := y + 8
  let doc := line doc y "Primary Insurance:" data.primaryInsurance
  let y := y + 8
  let doc := line doc y "Member ID:" data.memberId
  let y := y + 8
  let doc := line doc y "Group #:" data.groupNo
  let y := y + 8
  let doc := line doc y "Co-pay:" (if truthy data.copay then "$" ++ data.copay else "")
  let y := y + 12
  let doc := doc.setFontSize 12
  let doc := doc.text "Emergency Contact" 14 y
  let y := y + 6
  let doc := line doc y "Name:" data.emergencyName
  let y := y + 8
  let doc := line doc y "Relationship:" data.emergencyRelation
  let y := y + 8
  let doc := line doc y "Home/Work:" (data.emergencyHome ++ " / " ++ data.emergencyWork)
  let y := y + 18
  if truthy data.signatureDataUrl then do
    let doc ← JsDoc.addImage env doc data.signatureDataUrl "PNG" 14 y 60 18
    let doc := doc.text ("Signed: " ++ jsOr data.signatureDate "") 14 (y + 24)
    .ok doc.output
  else
    let doc := doc.text "Signature: __________________________  Date: ____________" 14 y
    .ok doc.output

/-- buildHealthHistoryPDF_fallback. -/
def buildHealthHistoryPDF_fallback (env : Env) (data : IntakeData) : Except JsError Bytes :=
  let doc : JsDoc := {}
  let doc := pdfHeader doc "Health History Questionnaire (POC – condensed)"
  let y : Int := 36
  let doc := line doc y ("Patient: " ++ data.lastName ++ ", " ++ data.firstName ++ " " ++ jsOr data.middle "")
  let y := y + 8
  let doc := line doc y "DOB:" data.dob
  let y := y + 12
  let doc := doc.setFontSize 12
  let doc := doc.text "Medical Problems (dx)" 14 y
  let y := y + 6
  let doc := doc.setFontSize 11
  let doc := doc.text (jsOr data.medicalProblems "—") 14 y (some 180)
  let y := y + 18
  let doc := doc.setFontSize 12
  let doc := doc.text "Surgeries" 14 y
  let y := y + 6
  let doc := doc.setFontSize 11
  let doc := doc.text (jsOr data.surgeries "—") 14 y (some 180)
  let y := y + 18
  let doc := doc.setFontSize 12
  let doc := doc.text "Hospitalizations" 14 y
  let y := y + 6
  let doc := doc.setFontSize 11
  let doc := doc.text (jsOr data.hospitalizations "—") 14 y (some 180)
  let y := y + 18
  let doc := doc.setFontSize 12
  let doc := doc.text "Medications" 14 y
  let y := y + 6
  let doc := doc.setFontSize 11
  let doc := doc.text (jsOr data.medications "—") 14 y (some 180)
  let y := y + 18
  let doc := doc.setFontSize 12
  let doc := doc.text "Allergies" 14 y
  let y := y + 6
  let doc := doc.setFontSize 11
  let doc := doc.text (jsOr data.allergies "—") 14 y (some 180)
  let y := y + 18
  let doc := doc.setFontSize 12
  let doc := doc.text "Lifestyle" 14 y
  let y := y + 6
  let doc := doc.setFontSize 11
  let doc := doc.text ("Exercise: " ++ jsOr data.exerciseLevel "—") 14 y
  let y := y + 6
  let doc := doc.text ("Diet: " ++ jsOr data.diet "—") 14 y
  let y := y + 6
  let doc := doc.text ("Alcohol: " ++ jsOr data.alcohol "—") 14 y
  let y := y + 6
  let doc := doc.text ("Tobacco: " ++ jsOr data.tobacco "—") 14 y
  let y := y + 6
  let doc := doc.text ("Drugs: " ++ jsOr data.drugs "—") 14 y
  let y := y + 12
  let doc := doc.setFontSize 12
  let doc := doc.text "Other Problems / Symptoms" 14 y
  let y := y + 6
  let doc := doc.setFontSize 11
  let doc := doc.text (jsOr data.otherProblems "—") 14 y (some 180)
  let y := y + 18
  if truthy data.signatureDataUrl then do
    let doc ← JsDoc.addImage env doc data.signatureDataUrl "PNG" 14 y 60 18
    let doc := doc.text ("Signed: " ++ jsOr data.signatureDate "") 14 (y + 24)
    .ok doc.output
  else
    let doc := doc.text "Signature: __________________________  Date: ____________" 14 y
    .ok doc.output

/-- buildFinancialPolicyPDF_fallback. -/
def buildFinancialPolicyPDF_fallback (env : Env) (data : IntakeData) : Except JsError Bytes :=
  let doc : JsDoc := {}
  let doc := pdfHeader doc "Financial Policy & Consent to Treat (POC acknowledgment)"
  let y : Int := 36
  let doc := doc.setFontSize 11
  let bullets : List String :=
    ["I agree to pay my portion (deductible, copay/coinsurance) and any non-covered services.",
     "I understand missed-appointment fees may apply and balances >30 days may accrue finance fees.",
     "I authorize release of medical information for payment and coordination of care.",
     "I authorize assignment of benefits to Prestige Primary Care for services rendered."]
  let st := bullets.foldl (fun (p : JsDoc × Int) b => (p.1.text ("• " ++ b) 14 p.2 (some 180), p.2 + 8)) (doc, y)
  let doc := st.1
  let y := st.2
  let y := y + 6
  let doc :=
    if data.initialPolicies then doc.text "Initialed: ✔" 14 y
    else doc.text "Initials: ____________" 14 y
  let y := y + 16
  if truthy data.signatureDataUrl then do
    let doc ← JsDoc.addImage env doc data.signatureDataUrl "PNG" 14 y 60 18
    let doc := doc.text ("Signed: " ++ jsOr data.signatureDate "") 14 (y + 24)
    .ok doc.output
  else
    let doc := doc.text "Signature: __________________________  Date: ____________" 14 y
    .ok doc.output

/-- buildReleaseInfoPDF_fallback. -/
def buildReleaseInfoPDF_fallback (env : Env) (data : IntakeData) : Except JsError Bytes :=
  let doc : JsDoc := {}
  let doc := pdfHeader doc "Release of Confidential Information (POC)"
  let y : Int := 36
  let doc := line doc y "May contact spouse:" (if data.mayContact.spouse then "Yes" else "No")
  let y := y + 8
  let doc := line doc y "May contact children:" (if data.mayContact.children then "Yes" else "No")
  let y := y + 8
  let vm := List.filterMap id
    [if data.mayContact.phones.home then some "Home" else none,
     if data.mayContact.phones.cell then some "Cell" else none,
     if data.mayContact.phones.work then some "Work" else none]
  let doc := line doc y "Voicemail permissions:" (jsOr (String.intercalate ", " vm) "—")
  let y := y + 8
  let doc := line doc y "Other contact:" (jsOr data.mayContact.other "—")
  let y := y + 12
  let doc := doc.setFontSize 12
  let doc := doc.text "Authorized people to receive records/billing" 14 y
  let y := y + 6
  let doc := doc.setFontSize 11
  let st := (data.authorizedContacts.enum).foldl
    (fun (p : JsDoc × Int) ic =>
      (p.1.text (toString (ic.1 + 1) ++ ". " ++ jsOr ic.2.name "—" ++ "  |  " ++ jsOr ic.2.relationship "—" ++ "  |  " ++ jsOr ic.2.phone "—") 14 p.2, p.2 + 6))
    (doc, y)
  let doc := st.1
  let y := st.2
  let y := y + 12
  if truthy data.signatureDataUrl then do
    let doc ← JsDoc.addImage env doc data.signatureDataUrl "PNG" 14 y 60 18
    let doc := doc.text ("Signed: " ++ jsOr data.signatureDate "") 14 (y + 24)
    .ok doc.output
  else
    let doc := doc.text "Signature: __________________________  Date: ____________" 14 y
    .ok doc.output

/-- buildPrivacyAckPDF_fallback. -/
def buildPrivacyAckPDF_fallback (env : Env) (data : IntakeData) : Except JsError Bytes :=
  let doc : JsDoc := {}
  let doc := pdfHeader doc "Acknowledgement of Receipt of Privacy Notice (POC)"
  let y : Int := 36
  let line1 :=
    if data.ackPrivacy then
      "I acknowledge I received or had the opportunity to review the Notice of Privacy Practices."
    else "Acknowledgement pending (not checked)."
  let doc := doc.setFontSize 11
  let doc := doc.text line1 14 y (some 180)
  let y := y + 18
  if truthy data.signatureDataUrl then do
    let doc ← JsDoc.addImage env doc data.signatureDataUrl "PNG" 14 y 60 18
    let doc := doc.text ("Signed: " ++ jsOr data.signatureDate "") 14 (y + 24)
    .ok doc.output
  else
    let doc := doc.text "Signature: __________________________  Date: ____________" 14 y
    .ok doc.output

/-- buildCodeOfConductPDF_fallback. -/
def buildCodeOfConductPDF_fallback (env : Env) (data : IntakeData) : Except JsError Bytes :=
  let doc : JsDoc := {}
  let doc := pdfHeader doc "Patient Code of Conduct (POC acknowledgment)"
  let y : Int := 36
  let rules : List String :=
    ["Treat staff and patients with respect; no abusive, discriminatory, or threatening behavior.",
     "Follow clinic policies, instructions, and safety rules.",
     "Maintain privacy for yourself and others; no recording without consent.",
     "Financial responsibility: keep contact/insurance info current and pay balances promptly."]
  let st := rules.foldl
    (fun (p : JsDoc × Int) t => ((p.1.setFontSize 11).text ("• " ++ t) 14 p.2 (some 180), p.2 + 8))
    (doc, y)
  let doc := st.1
  let y := st.2
  let y := y + 6
  let doc := doc.text ("Acknowledged: " ++ if data.ackCodeOfConduct then "Yes" else "No") 14 y
  let y := y + 16
  if truthy data.signatureDataUrl then do
    let doc ← JsDoc.addImage env doc data.signatureDataUrl "PNG" 14 y 60 18
    let doc := doc.text ("Signed: " ++ jsOr data.signatureDate "") 14 (y + 24)
    .ok doc.output
  else
    let doc := doc.text "Signature: __________________________  Date: ____________" 14 y
    .ok doc.output

/-- buildRegistration: template fill, or the jsPDF fallback when the
template is not found. -/
def buildRegistration (env : Env) (debug : Bool) (data : IntakeData) : Except JsError Bytes := do
  match ← fillRegistrationWithTemplate env debug data with
  | some b => .ok b
  | none => buildRegistrationPDF_fallback env data

/-- buildHealthHistory. -/
def buildHealthHistory (env : Env) (debug : Bool) (data : IntakeData) : Except JsError Bytes := do
  match ← fillHealthHistoryWithTemplate env debug data with
  | some b => .ok b
  | none => buildHealthHistoryPDF_fallback env data

/-- buildFinancialPolicy. -/
def buildFinancialPolicy (env : Env) (debug : Bool) (data : IntakeData) : Except JsError Bytes := do
  match ← fillFinancialPolicyWithTemplate env debug data with
  | some b => .ok b
  | none => buildFinancialPolicyPDF_fallback env data

/-- buildReleaseInfo. -/
def buildReleaseInfo (env : Env) (debug : Bool) (data : IntakeData) : Except JsError Bytes := do
  match ← fillReleaseInfoWithTemplate env debug data with
  | some b => .ok b
  | none => buildReleaseInfoPDF_fallback env data

/-- buildPrivacyAck. -/
def buildPrivacyAck (env : Env) (debug : Bool) (data : IntakeData) : Except JsError Bytes := do
  match ← fillPrivacyAckWithTemplate env debug data with
  | some b => .ok b
  | none => buildPrivacyAckPDF_fallback env data

/-- buildCodeOfConduct. -/
def buildCodeOfConduct (env : Env) (debug : Bool) (data : IntakeData) : Except JsError Bytes := do
  match ← fillCodeOfConductWithTemplate env debug data with
  | some b => .ok b
  | none => buildCodeOfConductPDF_fallback env data

/-- The six document types generated by generateZip / generateSinglePacket. -/
inductive DocType where
  | registration
  | healthHistory
  | financialPolicy
  | releaseInfo
  | privacyAck
  | codeOfConduct
  deriving DecidableEq

/-- produce: dispatch to the per-type orchestrator. -/
def produce (t : DocType) (env : Env) (debug : Bool) (data : IntakeData) : Except JsError Bytes :=
  match t with
  | .registration => buildRegistration env debug data
  | .healthHistory => buildHealthHistory env debug data
  | .financialPolicy => buildFinancialPolicy env debug data
  | .releaseInfo => buildReleaseInfo env debug data
  | .privacyAck => buildPrivacyAck env debug data
  | .codeOfConduct => buildCodeOfConduct env debug data

/-- The template resource path of each document type. -/
def templatePath : DocType → String
  | .registration => "/templates/1_Office_Registration.pdf"
  | .healthHistory => "/templates/2_Health_History.pdf"
  | .financialPolicy => "/templates/3_Financial_Policy.pdf"
  | .releaseInfo => "/templates/4_Release_of_Information.pdf"
  | .privacyAck => "/templates/5.5_Acknowledgement_of_Privacy_Policy.pdf"
  | .codeOfConduct => "/templates/PMG_Patient_Code_of_Conduct_March_2025_1.pdf"

/-- The template filler of each document type. -/
def fillFor (t : DocType) (env : Env) (debug : Bool) (data : IntakeData) :
    Except JsError (Option Bytes) :=
  match t with
  | .registration => fillRegistrationWithTemplate env debug data
  | .healthHistory => fillHealthHistoryWithTemplate env debug data
  | .financialPolicy => fillFinancialPolicyWithTemplate env debug data
  | .releaseInfo => fillReleaseInfoWithTemplate env debug data
  | .privacyAck => fillPrivacyAckWithTemplate env debug data
  | .codeOfConduct => fillCodeOfConductWithTemplate env debug data

/-- The fallback builder of each document type. -/
def fallbackFor (t : DocType) (env : Env) (data : IntakeData) : Except JsError Bytes :=
  match t with
  | .registration => buildRegistrationPDF_fallback env data
  | .healthHistory => buildHealthHistoryPDF_fallback env data
  | .financialPolicy => buildFinancialPolicyPDF_fallback env data
  | .releaseInfo => buildReleaseInfoPDF_fallback env data
  | .privacyAck => buildPrivacyAckPDF_fallback env data
  | .codeOfConduct => buildCodeOfConductPDF_fallback env data

/-- The loop body of mergeToPacket: parse each buffer and append all of
its pages, in order, to the output document. -/
def mergeLoop (out : List Page) : List Bytes → Except JsError (List Page)
  | [] => .ok out
  | bytes :: rest => do
    let src ← PDFDocument_load bytes
    mergeLoop (out ++ src) rest

/-- mergeToPacket: concatenate the page sequences of the inputs into one
document; PDFDocument.load faults on any unparseable input are not caught. -/
def mergeToPacket (docs : List Bytes) : Except JsError Bytes := do
  let pages ← mergeLoop [] docs
  .ok (pdfSave pages)

/-- Whether a buffer parses as a PDF. -/
def Bytes.parseOk : Bytes → Bool
  | .pdf _ => true
  | .malformed _ => false

/-- The page list of a buffer (empty for a malformed buffer). -/
def Bytes.pageList : Bytes → List Page
  | .pdf ps => ps
  | .malformed _ => []

/-- The page count of a buffer. -/
def Bytes.pageCount : Bytes → Nat
  | .pdf ps => ps.length
  | .malformed _ => 0

/-!
Baselines for the debug-flag noninterference claim: the six template
fillers with the calibration-overlay logic removed (no drawBox calls and
no debug conditionals), following the words of the spec.  The fallback
builders never mention the debug flag, so they need no baseline variant.
-/

/-- `write` with the overlay logic absent. -/
def writeNoOverlay (page : Page) (key : String) (text : String) : Page :=
  match MAP_REGISTRATION key with
  | none => page
  | some f =>
    let y := f.y
    let x := f.x
    drawText page (jsOr text "") x y (orDefault f.size 10) (some (orDefault f.w 200)) none

/-- fillRegistrationWithTemplate with the overlay logic absent. -/
def fillRegistrationNoOverlay (env : Env) (data : IntakeData) :
    Except JsError (Option Bytes) :=
  match fetchTemplate env "/templates/1_Office_Registration.pdf" with
  | none => .ok none
  | some bytes => do
    let pdf ← PDFDocument_load bytes
    let page ← getPage0 pdf
    let page := writeNoOverlay page "name" (jsTrim (data.lastName ++ ", " ++ data.firstName ++ " " ++ jsOr data.middle ""))
    let page := writeNoOverlay page "dob" data.dob
    let page := writeNoOverlay page "sex" data.sex
    let page := writeNoOverlay page "marital" data.maritalStatus
    let page := writeNoOverlay page "ssn" data.ssn
    let page := writeNoOverlay page "email" data.email
    let page := writeNoOverlay page "phones" (jsOr data.phoneCell "" ++ " (cell)  " ++ jsOr data.phoneHome "" ++ " (home)")
    let page := writeNoOverlay page "address" (jsTrim (data.address ++ ", " ++ data.city ++ ", " ++ data.state ++ " " ++ data.zip))
    let page := writeNoOverlay page "employer" (jsTrim (data.employer ++ "  |  " ++ data.employerPhone))
    let page := writeNoOverlay page "insuredPerson" data.insuredPerson
    let page := writeNoOverlay page "insuredDob" data.insuredDob
    let page := writeNoOverlay page "primaryIns" data.primaryInsurance
    let page := writeNoOverlay page "memberId" data.memberId
    let page := writeNoOverlay page "groupNo" data.groupNo
    let page := writeNoOverlay page "copay" (if truthy data.copay then "$" ++ data.copay else "")
    let page := writeNoOverlay page "emergencyName" data.emergencyName
    let page := writeNoOverlay page "emergencyRelation" data.emergencyRelation
    let page := writeNoOverlay page "emergencyPhones" (jsTrim (data.emergencyHome ++ " / " ++ data.emergencyWork))
    let page :=
      if truthy data.signatureDataUrl then
        if env.pngOk data.signatureDataUrl then
          drawImage page data.signatureDataUrl (anc (MAP_REGISTRATION "sign")).x
            (anc (MAP_REGISTRATION "sign")).y 180 40
        else page
      else page
    let page := drawText page (jsOr data.signatureDate "") (anc (MAP_REGISTRATION "signDate")).x
      (anc (MAP_REGISTRATION "signDate")).y 10 none none
    .ok (some (pdfSave (setPage0 pdf page)))

/-- `w` with the overlay logic absent. -/
def wNoOverlay (page : Page) (k : String) (t : String) : Except JsError Page :=
  match MAP_HHX k with
  | none => .error .undefinedField
  | some f =>
    .ok (drawText page (jsOr t "") f.x f.y (orDefault f.size 10) (some (orDefault f.w 300)) (some 12))

/-- fillHealthHistoryWithTemplate with the overlay logic absent. -/
def fillHealthHistoryNoOverlay (env : Env) (data : IntakeData) :
    Except JsError (Option Bytes) :=
  match fetchTemplate env "/templates/2_Health_History.pdf" with
  | none => .ok none
  | some bytes => do
    let pdf ← PDFDocument_load bytes
    let page ← getPage0 pdf
    let page ← wNoOverlay page "name" (data.lastName ++ ", " ++ data.firstName)
    let page ← wNoOverlay page "dob" data.dob
    let page ← wNoOverlay page "medicalProblems" data.medicalProblems
    let page ← wNoOverlay page "surgeries" data.surgeries
    let page ← wNoOverlay page "hospitalizations" data.hospitalizations
    let page ← wNoOverlay page "medications" data.medications
    let page ← wNoOverlay page "allergies" data.allergies
    let page ← wNoOverlay page "lifestyle1" ("Exercise: " ++ jsOr data.exerciseLevel "—" ++ "; Diet: " ++ jsOr data.diet "—" ++ "; Alcohol: " ++ jsOr data.alcohol "—" ++ "; Tobacco: " ++ jsOr data.tobacco "—" ++ "; Drugs: " ++ jsOr data.drugs "—")
    let page ← wNoOverlay page "other" data.otherProblems
    let page :=
      if truthy data.signatureDataUrl then
        if env.pngOk data.signatureDataUrl then
          drawImage page data.signatureDataUrl (anc (MAP_HHX "sign")).x (anc (MAP_HHX "sign")).y 180 40
        else page
      else page
    let page := drawText page (jsOr data.signatureDate "") (anc (MAP_HHX "signDate")).x
      (anc (MAP_HHX "signDate")).y 10 none none
    .ok (some (pdfSave (setPage0 pdf page)))

/-- fillFinancialPolicyWithTemplate with the overlay logic absent. -/
def fillFinancialPolicyNoOverlay (env : Env) (data : IntakeData) :
    Except JsError (Option Bytes) :=
  match fetchTemplate env "/templates/3_Financial_Policy.pdf" with
  | none => .ok none
  | some b => do
    let pdf ← PDFDocument_load b
    let page ← getPage0 pdf
    let page :=
      if data.initialPolicies then
        drawText page "✔" MAP_FP.initials.x MAP_FP.initials.y 10 none none
      else page
    let page :=
      if truthy data.signatureDataUrl then
        if env.pngOk data.signatureDataUrl then
          drawImage page data.signatureDataUrl MAP_FP.sign.x MAP_FP.sign.y 180 40
        else page
      else page
    let page := drawText page (jsOr data.signatureDate "") MAP_FP.signDate.x MAP_FP.signDate.y 10 none none
    .ok (some (pdfSave (setPage0 pdf page)))

/-- `check` with the overlay logic absent. -/
def checkNoOverlay (page : Page) (flag : Bool) (x y : Int) : Page :=
  if flag then drawText page "✔" x y 10 none none else page

/-- fillReleaseInfoWithTemplate with the overlay logic absent. -/
def fillReleaseInfoNoOverlay (env : Env) (data : IntakeData) :
    Except JsError (Option Bytes) :=
  match fetchTemplate env "/templates/4_Release_of_Information.pdf" with
  | none => .ok none
  | some b => do
    let pdf ← PDFDocument_load b
    let page ← getPage0 pdf
    let page := checkNoOverlay page data.mayContact.spouse MAP_ROI.spouse.x MAP_ROI.spouse.y
    let page := checkNoOverlay page data.mayContact.children MAP_ROI.children.x MAP_ROI.children.y
    let page := checkNoOverlay page data.mayContact.phones.home MAP_ROI.vmHome.x MAP_ROI.vmHome.y
    let page := checkNoOverlay page data.mayContact.phones.cell MAP_ROI.vmCell.x MAP_ROI.vmCell.y
    let page := checkNoOverlay page data.mayContact.phones.work MAP_ROI.vmWork.x MAP_ROI.vmWork.y
    let page := drawText page (jsOr data.mayContact.other "") MAP_ROI.other.x MAP_ROI.other.y 10 MAP_ROI.other.w none
    let list := data.authorizedContacts
    let page := drawText page (fmt (list.getD 0 {})) MAP_ROI.auth1.x MAP_ROI.auth1.y 10 MAP_ROI.auth1.w none
    let page := drawText page (fmt (list.getD 1 {})) MAP_ROI.auth2.x MAP_ROI.auth2.y 10 MAP_ROI.auth2.w none
    let page := drawText page (fmt (list.getD 2 {})) MAP_ROI.auth3.x MAP_ROI.auth3.y 10 MAP_ROI.auth3.w none
    let page :=
      if truthy data.signatureDataUrl then
        if env.pngOk data.signatureDataUrl then
          drawImage page data.signatureDataUrl MAP_ROI.sign.x MAP_ROI.sign.y 180 40
        else page
      else page
    let page := drawText page (jsOr data.signatureDate "") MAP_ROI.signDate.x MAP_ROI.signDate.y 10 none none
    .ok (some (pdfSave (setPage0 pdf page)))

/-- fillPrivacyAckWithTemplate with the overlay logic absent. -/
def fillPrivacyAckNoOverlay (env : Env) (data : IntakeData) :
    Except JsError (Option Bytes) :=
  match fetchTemplate env "/templates/5.5_Acknowledgement_of_Privacy_Policy.pdf" with
  | none => .ok none
  | some b => do
    let pdf ← PDFDocument_load b
    let page ← getPage0 pdf
    let line1 :=
      if data.ackPrivacy then
        "I acknowledge I received or had the opportunity to review the Notice of Privacy Practices."
      else "Acknowledgement pending (not checked)."
    let page := drawText page line1 MAP_HIPAA.ack.x MAP_HIPAA.ack.y 10 MAP_HIPAA.ack.w none
    let page :=
      if truthy data.signatureDataUrl then
        if env.pngOk data.signatureDataUrl then
          drawImage page data.signatureDataUrl MAP_HIPAA.sign.x MAP_HIPAA.sign.y 180 40
        else page
      else page
    let page := drawText page (jsOr data.signatureDate "") MAP_HIPAA.signDate.x MAP_HIPAA.signDate.y 10 none none
    .ok (some (pdfSave (setPage0 pdf page)))

/-- fillCodeOfConductWithTemplate with the overlay logic absent. -/
def fillCodeOfConductNoOverlay (env : Env) (data : IntakeData) :
    Except JsError (Option Bytes) :=
  match fetchTemplate env "/templates/PMG_Patient_Code_of_Conduct_March_2025_1.pdf" with
  | none => .ok none
  | some b => do
    let pdf ← PDFDocument_load b
    let page ← getPage0 pdf
    let page :=
      if data.ackCodeOfConduct then
        drawText page "✔" MAP_COC.ack.x MAP_COC.ack.y 10 none none
      else page
    let page :=
      if truthy data.signatureDataUrl then
        if env.pngOk data.signatureDataUrl then
          drawImage page data.signatureDataUrl MAP_COC.sign.x MAP_COC.sign.y 180 40
        else page
      else page
    let page := drawText page (jsOr data.signatureDate "") MAP_COC.signDate.x MAP_COC.signDate.y 10 none none
    .ok (some (pdfSave (setPage0 pdf page)))

/-- produce with the overlay logic absent everywhere. -/
def produceNoOverlay (t : DocType) (env : Env) (data : IntakeData) : Except JsError Bytes :=
  match t with
  | .registration => do
    match ← fillRegistrationNoOverlay env data with
    | some b => .ok b
    | none => buildRegistrationPDF_fallback env data
  | .healthHistory => do
    match ← fillHealthHistoryNoOverlay env data with
    | some b => .ok b
    | none => buildHealthHistoryPDF_fallback env data
  | .financialPolicy => do
    match ← fillFinancialPolicyNoOverlay env data with
    | some b => .ok b
    | none => buildFinancialPolicyPDF_fallback env data
  | .releaseInfo => do
    match ← fillReleaseInfoNoOverlay env data with
    | some b => .ok b
    | none => buildReleaseInfoPDF_fallback env data
  | .privacyAck => do
    match ← fillPrivacyAckNoOverlay env data with
    | some b => .ok b
    | none => buildPrivacyAckPDF_fallback env data
  | .codeOfConduct => do
    match ← fillCodeOfConductNoOverlay env data with
    | some b => .ok b
    | none => buildCodeOfConductPDF_fallback env data

/-- The strings drawn at a given (x, y) position of a page, in drawing
order: the observable used to state where a filler renders text. -/
def textAt (page : Page) (a b : Int) : List String :=
  page.filterMap fun op => match op with
    | PdfOp.text s x y _ _ _ => if x = a ∧ y = b then some s else none
    | _ => none

/-! Helper lemmas shared by the claim proofs. -/

@[simp] theorem ok_bind {ε α β : Type} (a : α) (f : α → Except ε β) :
    (Except.ok a >>= f) = f a := rfl

@[simp] theorem error_bind {ε α β : Type} (e : ε) (f : α → Except ε β) :
    ((Except.error e : Except ε α) >>= f) = Except.error e := rfl

@[simp] theorem truthy_nil : truthy "" = false := rfl

theorem fill_of_fetch_none (t : DocType) (env : Env) (debug : Bool) (data : IntakeData)
    (h : fetchTemplate env (templatePath t) = none) :
    fillFor t env debug data = .ok none := by
  cases t <;>
    simp_all [fillFor, templatePath, fillRegistrationWithTemplate, fillHealthHistoryWithTemplate,
      fillFinancialPolicyWithTemplate, fillReleaseInfoWithTemplate, fillPrivacyAckWithTemplate,
      fillCodeOfConductWithTemplate]

theorem produce_of_fill_some (t : DocType) (env : Env) (debug : Bool) (data : IntakeData)
    (r : Bytes) (h : fillFor t env debug data = .ok (some r)) :
    produce t env debug data = .ok r := by
  cases t <;>
    · simp only [fillFor] at h
      simp [produce, buildRegistration, buildHealthHistory, buildFinancialPolicy,
        buildReleaseInfo, buildPrivacyAck, buildCodeOfConduct, h]

theorem produce_of_fetch_none (t : DocType) (env : Env) (debug : Bool) (data : IntakeData)
    (h : fetchTemplate env (templatePath t) = none) :
    produce t env debug data = fallbackFor t env data := by
  have hf := fill_of_fetch_none t env debug data h
  cases t <;>
    · simp only [fillFor] at hf
      simp [produce, buildRegistration, buildHealthHistory, buildFinancialPolicy,
        buildReleaseInfo, buildPrivacyAck, buildCodeOfConduct, fallbackFor, hf]

theorem fallback_err (t : DocType) (env : Env) (data : IntakeData)
    (h1 : truthy data.signatureDataUrl = true)
    (h2 : env.pngOk data.signatureDataUrl = false) :
    fallbackFor t env data = .error .embedFailure := by
  cases t <;>
    simp [fallbackFor, buildRegistrationPDF_fallback, buildHealthHistoryPDF_fallback,
      buildFinancialPolicyPDF_fallback, buildReleaseInfoPDF_fallback,
      buildPrivacyAckPDF_fallback, buildCodeOfConductPDF_fallback, h1, h2, JsDoc.addImage]

theorem fallback_ok (t : DocType) (env : Env) (data : IntakeData)
    (h : data.signatureDataUrl = "" ∨ env.pngOk data.signatureDataUrl = true) :
    ∃ page, fallbackFor t env data = .ok (.pdf [page]) := by
  rcases h with h | h
  · cases t <;>
      simp [fallbackFor, buildRegistrationPDF_fallback, buildHealthHistoryPDF_fallback,
        buildFinancialPolicyPDF_fallback, buildReleaseInfoPDF_fallback,
        buildPrivacyAckPDF_fallback, buildCodeOfConductPDF_fallback, h, JsDoc.output]
  · cases hs : truthy data.signatureDataUrl <;>
      cases t <;>
        simp [fallbackFor, buildRegistrationPDF_fallback, buildHealthHistoryPDF_fallback,
          buildFinancialPolicyPDF_fallback, buildReleaseInfoPDF_fallback,
          buildPrivacyAckPDF_fallback, buildCodeOfConductPDF_fallback, h, hs,
          JsDoc.addImage, JsDoc.output]

theorem fill_ok (t : DocType) (env : Env) (debug : Bool) (data : IntakeData)
    (p : Page) (ps : List Page)
    (h : env.fetchRaw (templatePath t) = .success (.pdf (p :: ps))) :
    ∃ q, fillFor t env debug data = .ok (some (.pdf (q :: ps))) := by
  have hft : fetchTemplate env (templatePath t) = some (.pdf (p :: ps)) := by
    simp [fetchTemplate, h]
  cases t <;>
    · simp only [templatePath] at hft
      simp only [fillFor]
      first
      | (unfold fillRegistrationWithTemplate; rw [hft]; exact ⟨_, rfl⟩)
      | (unfold fillHealthHistoryWithTemplate; rw [hft]; exact ⟨_, rfl⟩)
      | (unfold fillFinancialPolicyWithTemplate; rw [hft]; exact ⟨_, rfl⟩)
      | (unfold fillReleaseInfoWithTemplate; rw [hft]; exact ⟨_, rfl⟩)
      | (unfold fillPrivacyAckWithTemplate; rw [hft]; exact ⟨_, rfl⟩)
      | (unfold fillCodeOfConductWithTemplate; rw [hft]; exact ⟨_, rfl⟩)

theorem fill_sig_invalid (t : DocType) (env : Env) (debug : Bool) (data : IntakeData)
    (h1 : truthy data.signatureDataUrl = true)
    (h2 : env.pngOk data.signatureDataUrl = false) :
    fillFor t env debug data = fillFor t env debug { data with signatureDataUrl := "" } := by
  cases t
  case registration =>
    simp only [fillFor, fillRegistrationWithTemplate]
    cases hf : fetchTemplate env "/templates/1_Office_Registration.pdf" with
    | none => rfl
    | some bytes => simp [h1, h2]
  case healthHistory =>
    simp only [fillFor, fillHealthHistoryWithTemplate]
    cases hf : fetchTemplate env "/templates/2_Health_History.pdf" with
    | none => rfl
    | some bytes => simp [h1, h2]
  case financialPolicy =>
    simp only [fillFor, fillFinancialPolicyWithTemplate]
    cases hf : fetchTemplate env "/templates/3_Financial_Policy.pdf" with
    | none => rfl
    | some bytes => simp [h1, h2]
  case releaseInfo =>
    simp only [fillFor, fillReleaseInfoWithTemplate]
    cases hf : fetchTemplate env "/templates/4_Release_of_Information.pdf" with
    | none => rfl
    | some bytes => simp [h1, h2]
  case privacyAck =>
    simp only [fillFor, fillPrivacyAckWithTemplate]
    cases hf : fetchTemplate env "/templates/5.5_Acknowledgement_of_Privacy_Policy.pdf" with
    | none => rfl
    | some bytes => simp [h1, h2]
  case codeOfConduct =>
    simp only [fillFor, fillCodeOfConductWithTemplate]
    cases hf : fetchTemplate env "/templates/PMG_Patient_Code_of_Conduct_March_2025_1.pdf" with
    | none => rfl
    | some bytes => simp [h1, h2]

theorem mergeLoop_ok (docs : List Bytes) (h : ∀ b ∈ docs, b.parseOk = true) :
    ∀ out : List Page, mergeLoop out docs = .ok (out ++ (docs.map Bytes.pageList).flatten) := by
  induction docs with
  | nil => intro out; simp [mergeLoop]
  | cons a rest ih =>
    intro out
    have ha : a.parseOk = true := h a (by simp)
    cases a with
    | malformed tag => simp [Bytes.parseOk] at ha
    | pdf ps =>
      have := ih (fun b hb => h b (by simp [hb]))
      simp [mergeLoop, PDFDocument_load, Bytes.pageList, this, List.append_assoc]

theorem mergeLoop_err : ∀ (docs : List Bytes), (∃ b ∈ docs, b.parseOk = false) →
    ∀ out, mergeLoop out docs = .error .malformedDocument := by
  intro docs
  induction docs with
  | nil => rintro ⟨b, hb, _⟩; simp at hb
  | cons a rest ih =>
    rintro ⟨b, hb, hp⟩ out
    cases a with
    | malformed tag => simp [mergeLoop, PDFDocument_load]
    | pdf ps =>
      rcases List.mem_cons.mp hb with rfl | hb2
      · simp [Bytes.parseOk] at hp
      · simp [mergeLoop, PDFDocument_load, ih ⟨b, hb2, hp⟩]

@[simp] theorem pageList_length (b : Bytes) : b.pageList.length = b.pageCount := by
  cases b <;> rfl

theorem mem_drawText_self (page : Page) (s : String) (x y sz : Int) (mw lh : Option Int) :
    PdfOp.text s x y sz mw lh ∈ drawText page s x y sz mw lh := by simp [drawText]

theorem mem_drawText {op : PdfOp} {page : Page} (s : String) (x y sz : Int) (mw lh : Option Int)
    (h : op ∈ page) : op ∈ drawText page s x y sz mw lh := by
  simp [drawText]; exact Or.inl h

theorem mem_drawImage {op : PdfOp} {page : Page} (d : String) (x y wd ht : Int)
    (h : op ∈ page) : op ∈ drawImage page d x y wd ht := by
  simp [drawImage]; exact Or.inl h

theorem mem_sigblock {op : PdfOp} {page : Page} (c1 c2 : Bool) (d : String) (x y wd ht : Int)
    (h : op ∈ page) :
    op ∈ (if c1 = true then if c2 = true then drawImage page d x y wd ht else page else page) := by
  split
  · split
    · exact mem_drawImage d x y wd ht h
    · exact h
  · exact h

@[simp] theorem textAt_nil (a b : Int) : textAt [] a b = [] := rfl

theorem textAt_append (p q : Page) (a b : Int) :
    textAt (p ++ q) a b = textAt p a b ++ textAt q a b := by
  simp [textAt]

theorem textAt_drawText (page : Page) (s : String) (x y sz : Int) (mw lh : Option Int) (a b : Int) :
    textAt (drawText page s x y sz mw lh) a b
      = textAt page a b ++ (if x = a ∧ y = b then [s] else []) := by
  simp only [drawText, textAt_append]
  congr 1
  simp [textAt]
  split <;> simp_all

theorem textAt_drawImage (page : Page) (d : String) (x y wd ht : Int) (a b : Int) :
    textAt (drawImage page d x y wd ht) a b = textAt page a b := by
  simp only [drawImage, textAt_append]
  simp [textAt]

theorem textAt_drawBox (debug : Bool) (page : Page) (x y wd ht : Int) (a b : Int) :
    textAt (drawBox debug page x y wd ht) a b = textAt page a b := by
  unfold drawBox
  split
  · rw [textAt_append]; simp [textAt]
  · rfl

theorem textAt_check (debug : Bool) (page : Page) (flag : Bool) (x y a b : Int) :
    textAt (check debug page flag x y) a b
      = textAt page a b ++ (if flag = true ∧ x = a ∧ y = b then ["✔"] else []) := by
  cases debug <;> cases flag <;> simp [check, textAt_drawText, textAt_drawBox]

theorem textAt_sigblock (page : Page) (c1 c2 : Bool) (d : String) (x y wd ht : Int) (a b : Int) :
    textAt (if c1 = true then if c2 = true then drawImage page d x y wd ht else page else page) a b
      = textAt page a b := by
  split
  · split
    · exact textAt_drawImage page d x y wd ht a b
    · rfl
  · rfl

@[simp] theorem take3_getD0 (l : List Contact) (e : Contact) : (l.take 3).getD 0 e = l.getD 0 e := by
  cases l <;> simp

@[simp] theorem take3_getD1 (l : List Contact) (e : Contact) : (l.take 3).getD 1 e = l.getD 1 e := by
  rcases l with _ | ⟨a, _ | ⟨b, t⟩⟩ <;> simp

@[simp] theorem take3_getD2 (l : List Contact) (e : Contact) : (l.take 3).getD 2 e = l.getD 2 e := by
  rcases l with _ | ⟨a, _ | ⟨b, _ | ⟨c, t⟩⟩⟩ <;> simp

/-- An environment in which every fetch succeeds with a parseable
one-page document and every image string decodes. -/
def envAll : Env := ⟨fun _ => .success (.pdf [[]]), fun _ => true⟩

/-- An environment in which every fetch gets a non-ok HTTP response and no
image string decodes. -/
def envNone : Env := ⟨fun _ => .httpError, fun _ => false⟩

/-- An environment in which every fetch succeeds but returns a buffer that
does not parse as a PDF. -/
def envMal : Env := ⟨fun _ => .success (.malformed 7), fun _ => false⟩

/-- A record whose signature payload is a non-empty string that no image
decoder accepts. -/
def dataBadSig : IntakeData := { emptyData with signatureDataUrl := "corrupt" }

/-- A record with exactly one authorized contact, John Doe. -/
def dataJohn : IntakeData :=
  { emptyData with authorizedContacts := [{ name := "John Doe", relationship := "Spouse", phone := "555-1234" }] }

/-- Claim C1, counterexample: with every template fetch succeeding but
returning a buffer that does not parse as a PDF, produce raises a
malformed-document fault instead of returning a document, so produce is
not total over all template availability states. -/
theorem claim1_counterexample :
    produce .registration envMal false emptyData = .error .malformedDocument := rfl

/-- Claim C1 (amended): for every record and document type, if every
successful template fetch yields a parseable document with at least one
page, and the signature payload is empty or decodable, then produce
returns a parseable document with at least one page; moreover the two
paths are mutually exclusive: when the template fetch succeeds the output
is the template-fill output, and when it fails the output is exactly the
fallback builder output. -/
theorem claim1_produce_total_and_mutually_exclusive
    (t : DocType) (env : Env) (debug : Bool) (data : IntakeData)
    (h1 : ∀ p b, env.fetchRaw p = .success b → ∃ q qs, b = .pdf (q :: qs))
    (h2 : data.signatureDataUrl = "" ∨ env.pngOk data.signatureDataUrl = true) :
    (∃ q qs, produce t env debug data = .ok (.pdf (q :: qs)))
      ∧ (∀ b, fetchTemplate env (templatePath t) = some b →
          ∀ r, fillFor t env debug data = .ok (some r) → produce t env debug data = .ok r)
      ∧ (fetchTemplate env (templatePath t) = none →
          produce t env debug data = fallbackFor t env data) := by
  refine ⟨?_, fun b _ r hr => produce_of_fill_some t env debug data r hr,
    fun hn => produce_of_fetch_none t env debug data hn⟩
  cases hfo : env.fetchRaw (templatePath t) with
  | success b =>
    obtain ⟨q, qs, rfl⟩ := h1 _ b hfo
    obtain ⟨q2, hq2⟩ := fill_ok t env debug data q qs hfo
    exact ⟨q2, qs, produce_of_fill_some t env debug data _ hq2⟩
  | httpError =>
    have hn : fetchTemplate env (templatePath t) = none := by simp [fetchTemplate, hfo]
    obtain ⟨page, hp⟩ := fallback_ok t env data h2
    exact ⟨page, [], by rw [produce_of_fetch_none t env debug data hn, hp]⟩
  | threw =>
    have hn : fetchTemplate env (templatePath t) = none := by simp [fetchTemplate, hfo]
    obtain ⟨page, hp⟩ := fallback_ok t env data h2
    exact ⟨page, [], by rw [produce_of_fetch_none t env debug data hn, hp]⟩

/-- Claim C1, witness at the registration type in an environment where
every fetch yields a parseable one-page template. -/
theorem claim1_witness :
    (∃ q qs, produce .registration envAll false emptyData = .ok (.pdf (q :: qs)))
      ∧ (∀ b, fetchTemplate envAll (templatePath .registration) = some b →
          ∀ r, fillFor .registration envAll false emptyData = .ok (some r) →
            produce .registration envAll false emptyData = .ok r)
      ∧ (fetchTemplate envAll (templatePath .registration) = none →
          produce .registration envAll false emptyData = fallbackFor .registration envAll emptyData) :=
  claim1_produce_total_and_mutually_exclusive .registration envAll false emptyData
    (fun p b hb => by injection hb with h; exact ⟨[], [], h.symm⟩) (Or.inl rfl)

/-- Claim C2, counterexample: with the template absent, a record whose
signature payload is a non-empty undecodable string makes generation fail
with an embed fault, because the fallback builder does not guard its
addImage call; so generation does not always recover from a corrupt
signature. -/
theorem claim2_counterexample :
    produce .healthHistory envNone false dataBadSig = .error .embedFailure := rfl

/-- Claim C2 (amended): for a record whose signature payload is a
non-empty string that does not decode, every template filler behaves
exactly as if the signature were absent (the image is omitted, nothing is
thrown); but every fallback builder raises an embed failure, so produce
fails when the template is absent. -/
theorem claim2_invalid_signature (t : DocType) (env : Env) (debug : Bool) (data : IntakeData)
    (h1 : truthy data.signatureDataUrl = true)
    (h2 : env.pngOk data.signatureDataUrl = false) :
    fillFor t env debug data = fillFor t env debug { data with signatureDataUrl := "" }
      ∧ fallbackFor t env data = .error .embedFailure
      ∧ (fetchTemplate env (templatePath t) = none →
          produce t env debug data = .error .embedFailure) := by
  refine ⟨fill_sig_invalid t env debug data h1 h2, fallback_err t env data h1 h2, fun hn => ?_⟩
  rw [produce_of_fetch_none t env debug data hn]
  exact fallback_err t env data h1 h2

/-- Claim C2, witness at the privacy-acknowledgement type with a corrupt
signature payload. -/
theorem claim2_witness :
    (fillFor .privacyAck envNone false dataBadSig
        = fillFor .privacyAck envNone false { dataBadSig with signatureDataUrl := "" })
      ∧ fallbackFor .privacyAck envNone dataBadSig = .error .embedFailure
      ∧ (fetchTemplate envNone (templatePath .privacyAck) = none →
          produce .privacyAck envNone false dataBadSig = .error .embedFailure) :=
  claim2_invalid_signature .privacyAck envNone false dataBadSig rfl rfl

/-- Claim C3, counterexample: the health-history write helper `w` faults
on a key absent from its map instead of skipping the write silently. -/
theorem claim3_counterexample :
    w false [] "nickname" "x" = .error .undefinedField := rfl

/-- Claim C3 (amended): a write with a key absent from the field map is
silently skipped, leaving the page unchanged, by the registration helper
`write`; the health-history helper `w` has no absence check and instead
faults with an undefined-property access on a missing key. -/
theorem claim3_field_map_miss (debug : Bool) (page : Page) (k1 k2 text : String)
    (h1 : MAP_REGISTRATION k1 = none) (h2 : MAP_HHX k2 = none) :
    write debug page k1 text = page ∧ w debug page k2 text = .error .undefinedField := by
  constructor
  · simp [write, h1]
  · simp [w, h2]

/-- Claim C3, witness at a key declared in neither map. -/
theorem claim3_witness :
    write false [] "zzz" "hello" = [] ∧ w false [] "zzz" "hello" = .error .undefinedField :=
  claim3_field_map_miss false [] "zzz" "zzz" "hello" rfl rfl

/-- Claim C4: when every input buffer parses, mergeToPacket returns a
document whose pages are the concatenation of the inputs' page lists in
input order, and whose page count is the sum of the inputs' page counts. -/
theorem claim4_merge_concatenates (docs : List Bytes) (h : ∀ b ∈ docs, b.parseOk = true) :
    ∃ pages, mergeToPacket docs = .ok (.pdf pages)
      ∧ pages = (docs.map Bytes.pageList).flatten
      ∧ pages.length = (docs.map Bytes.pageCount).sum := by
  refine ⟨(docs.map Bytes.pageList).flatten, ?_, rfl, ?_⟩
  · simp [mergeToPacket, mergeLoop_ok docs h, pdfSave]
  · simp [List.length_flatten, List.map_map, Function.comp_def]

/-- Claim C4, witness: merging a two-page document with a one-page
document. -/
theorem claim4_witness :
    ∃ pages, mergeToPacket [Bytes.pdf [[], []], Bytes.pdf [[]]] = .ok (.pdf pages)
      ∧ pages = ([Bytes.pdf [[], []], Bytes.pdf [[]]].map Bytes.pageList).flatten
      ∧ pages.length = ([Bytes.pdf [[], []], Bytes.pdf [[]]].map Bytes.pageCount).sum :=
  claim4_merge_concatenates [Bytes.pdf [[], []], Bytes.pdf [[]]] (by decide)

/-- Claim C5: if any input buffer does not parse as a PDF, mergeToPacket
surfaces a malformed-document fault to the caller and returns no output. -/
theorem claim5_merge_malformed (docs : List Bytes) (b : Bytes)
    (hb : b ∈ docs) (hp : b.parseOk = false) :
    mergeToPacket docs = .error .malformedDocument := by
  simp [mergeToPacket, mergeLoop_err docs ⟨b, hb, hp⟩]

/-- Claim C5, witness: merging three buffers where the second is
malformed. -/
theorem claim5_witness :
    mergeToPacket [Bytes.pdf [[]], Bytes.malformed 3, Bytes.pdf [[]]] = .error .malformedDocument :=
  claim5_merge_malformed [Bytes.pdf [[]], Bytes.malformed 3, Bytes.pdf [[]]]
    (Bytes.malformed 3) (by decide) rfl

/-- Claim C6: for every document type, environment and record, a
generation run with the debug flag off is identical to a run of the same
pipeline with the calibration-overlay logic absent, so the flag in its off
state has no effect on the output bytes. -/
theorem claim6_debug_off_noninterference :
    ∀ (t : DocType) (env : Env) (data : IntakeData),
      produce t env false data = produceNoOverlay t env data := by
  intro t env data
  cases t <;> rfl

/-- Claim C7, counterexample: a successful fetch of a malformed buffer is
returned as a present template, not Absent, and the subsequent
PDFDocument.load in the filler raises a fault that is not caught, so
Absent is not the only failure outcome associated with template loading on
malformed binaries. -/
theorem claim7_counterexample :
    fetchTemplate envMal "/templates/1_Office_Registration.pdf" = some (.malformed 7)
      ∧ fillRegistrationWithTemplate envMal false emptyData = .error .malformedDocument :=
  ⟨rfl, rfl⟩

/-- Claim C7 (amended): fetchTemplate returns Absent on a non-ok HTTP
response and on a thrown fetch/read exception, and returns whatever bytes
a successful fetch produced without validating them — a malformed binary
is returned as present, not Absent. -/
theorem claim7_loader_absent_on_failure (env : Env) (path : String) :
    (env.fetchRaw path = .httpError → fetchTemplate env path = none)
      ∧ (env.fetchRaw path = .threw → fetchTemplate env path = none)
      ∧ (∀ b, env.fetchRaw path = .success b → fetchTemplate env path = some b) := by
  refine ⟨fun h => ?_, fun h => ?_, fun b h => ?_⟩ <;> simp [fetchTemplate, h]

/-- Claim C7, witness: the three fetch outcomes at a concrete path. -/
theorem claim7_witness :
    fetchTemplate envNone "/templates/1_Office_Registration.pdf" = none
      ∧ fetchTemplate ⟨fun _ => .threw, fun _ => false⟩ "/templates/1_Office_Registration.pdf" = none
      ∧ fetchTemplate envAll "/templates/1_Office_Registration.pdf" = some (.pdf [[]]) :=
  ⟨(claim7_loader_absent_on_failure envNone "/templates/1_Office_Registration.pdf").1 rfl,
   (claim7_loader_absent_on_failure ⟨fun _ => .threw, fun _ => false⟩
      "/templates/1_Office_Registration.pdf").2.1 rfl,
   (claim7_loader_absent_on_failure envAll "/templates/1_Office_Registration.pdf").2.2 _ rfl⟩

/-- Claim C8: with the release-of-information template present and an
authorized-contact list holding exactly John Doe, the filled document
contains the formatted string at the auth1 anchor coordinates (50, 540)
with the declared size and width. -/
theorem claim8_roi_auth1 (env : Env) (debug : Bool) (data : IntakeData)
    (p0 : Page) (rest : List Page)
    (h : env.fetchRaw "/templates/4_Release_of_Information.pdf" = .success (.pdf (p0 :: rest)))
    (hc : data.authorizedContacts
        = [{ name := "John Doe", relationship := "Spouse", phone := "555-1234" }]) :
    ∃ ps, fillReleaseInfoWithTemplate env debug data = .ok (some (.pdf ps))
      ∧ PdfOp.text "John Doe | Spouse | 555-1234" 50 540 10 (some 500) none ∈ ps.flatten := by
  have hft : fetchTemplate env "/templates/4_Release_of_Information.pdf"
      = some (.pdf (p0 :: rest)) := by
    simp [fetchTemplate, h]
  unfold fillReleaseInfoWithTemplate
  rw [hft, hc]
  refine ⟨_, rfl, ?_⟩
  simp only [setPage0, List.flatten_cons]
  refine List.mem_append_left _ ?_
  exact mem_drawText _ _ _ _ _ _ (mem_sigblock _ _ _ _ _ _ _
    (mem_drawText _ _ _ _ _ _ (mem_drawText _ _ _ _ _ _ (mem_drawText_self _ _ _ _ _ _ _))))

/-- Claim C8, witness on an empty one-page template. -/
theorem claim8_witness :
    ∃ ps, fillReleaseInfoWithTemplate envAll false dataJohn = .ok (some (.pdf ps))
      ∧ PdfOp.text "John Doe | Spouse | 555-1234" 50 540 10 (some 500) none ∈ ps.flatten :=
  claim8_roi_auth1 envAll false dataJohn [] [] rfl rfl

/-- Claim C9, counterexample: with the acknowledgement flag false, the
privacy filler renders the substitute text string at its ack anchor
instead of rendering nothing, so not every boolean field renders
check-glyph-or-nothing. -/
theorem claim9_counterexample :
    fillPrivacyAckWithTemplate envAll false emptyData
      = .ok (some (.pdf [[PdfOp.text "Acknowledgement pending (not checked)." 60 640 10 (some 500) none,
                          PdfOp.text "" 320 120 10 none none]])) := rfl

/-- Claim C9 (amended): with debug off and the template present, the
checkbox fields of the release-of-information filler (five), the
financial-policy initials and the code-of-conduct acknowledgement each
render exactly one check glyph at their anchor when true and add nothing
at that anchor when false; the privacy-acknowledgement filler is the
exception, writing sentence text at its ack anchor in both states. -/
theorem claim9_checkbox_render (env : Env) (data : IntakeData)
    (p0 : Page) (prest : List Page) (q0 : Page) (qrest : List Page)
    (r0 : Page) (rrest : List Page)
    (hroi : env.fetchRaw "/templates/4_Release_of_Information.pdf" = .success (.pdf (p0 :: prest)))
    (hfp : env.fetchRaw "/templates/3_Financial_Policy.pdf" = .success (.pdf (q0 :: qrest)))
    (hcoc : env.fetchRaw "/templates/PMG_Patient_Code_of_Conduct_March_2025_1.pdf"
        = .success (.pdf (r0 :: rrest))) :
    (∃ q, fillReleaseInfoWithTemplate env false data = .ok (some (.pdf (q :: prest)))
      ∧ textAt q 150 620 = textAt p0 150 620 ++ (if data.mayContact.spouse then ["✔"] else [])
      ∧ textAt q 340 620 = textAt p0 340 620 ++ (if data.mayContact.children then ["✔"] else [])
      ∧ textAt q 150 600 = textAt p0 150 600 ++ (if data.mayContact.phones.home then ["✔"] else [])
      ∧ textAt q 230 600 = textAt p0 230 600 ++ (if data.mayContact.phones.cell then ["✔"] else [])
      ∧ textAt q 310 600 = textAt p0 310 600 ++ (if data.mayContact.phones.work then ["✔"] else []))
    ∧ (∃ q, fillFinancialPolicyWithTemplate env false data = .ok (some (.pdf (q :: qrest)))
      ∧ textAt q 80 300 = textAt q0 80 300 ++ (if data.initialPolicies then ["✔"] else []))
    ∧ (∃ q, fillCodeOfConductWithTemplate env false data = .ok (some (.pdf (q :: rrest)))
      ∧ textAt q 80 300 = textAt r0 80 300 ++ (if data.ackCodeOfConduct then ["✔"] else [])) := by
  refine ⟨?_, ?_, ?_⟩
  · have hft : fetchTemplate env "/templates/4_Release_of_Information.pdf"
        = some (.pdf (p0 :: prest)) := by
      simp [fetchTemplate, hroi]
    unfold fillReleaseInfoWithTemplate
    rw [hft]
    refine ⟨_, rfl, ?_, ?_, ?_, ?_, ?_⟩ <;>
      norm_num [textAt_drawText, textAt_check, textAt_sigblock, textAt_drawBox,
        textAt_drawImage, MAP_ROI]
  · have hft : fetchTemplate env "/templates/3_Financial_Policy.pdf"
        = some (.pdf (q0 :: qrest)) := by
      simp [fetchTemplate, hfp]
    unfold fillFinancialPolicyWithTemplate
    rw [hft]
    refine ⟨_, rfl, ?_⟩
    cases hip : data.initialPolicies <;>
      norm_num [hip, textAt_drawText, textAt_sigblock, textAt_drawBox, MAP_FP]
  · have hft : fetchTemplate env "/templates/PMG_Patient_Code_of_Conduct_March_2025_1.pdf"
        = some (.pdf (r0 :: rrest)) := by
      simp [fetchTemplate, hcoc]
    unfold fillCodeOfConductWithTemplate
    rw [hft]
    refine ⟨_, rfl, ?_⟩
    cases hip : data.ackCodeOfConduct <;>
      norm_num [hip, textAt_drawText, textAt_sigblock, textAt_drawBox, MAP_COC]

/-- Claim C9, witness on empty one-page templates with the all-false
record. -/
theorem claim9_witness :
    (∃ q, fillReleaseInfoWithTemplate envAll false emptyData = .ok (some (.pdf [q]))
      ∧ textAt q 150 620 = textAt [] 150 620 ++ (if emptyData.mayContact.spouse then ["✔"] else [])
      ∧ textAt q 340 620 = textAt [] 340 620 ++ (if emptyData.mayContact.children then ["✔"] else [])
      ∧ textAt q 150 600 = textAt [] 150 600 ++ (if emptyData.mayContact.phones.home then ["✔"] else [])
      ∧ textAt q 230 600 = textAt [] 230 600 ++ (if emptyData.mayContact.phones.cell then ["✔"] else [])
      ∧ textAt q 310 600 = textAt [] 310 600 ++ (if emptyData.mayContact.phones.work then ["✔"] else []))
    ∧ (∃ q, fillFinancialPolicyWithTemplate envAll false emptyData = .ok (some (.pdf [q]))
      ∧ textAt q 80 300 = textAt [] 80 300 ++ (if emptyData.initialPolicies then ["✔"] else []))
    ∧ (∃ q, fillCodeOfConductWithTemplate envAll false emptyData = .ok (some (.pdf [q]))
      ∧ textAt q 80 300 = textAt [] 80 300 ++ (if emptyData.ackCodeOfConduct then ["✔"] else [])) :=
  claim9_checkbox_render envAll emptyData [] [] [] [] [] [] rfl rfl rfl

/-- Claim C10: the release-of-information filler renders exactly the
first three entries of the authorized-contact list: its output only
depends on the first three entries, a slot beyond the list length renders
the literal string of an empty contact, which is "|  |", and the three
auth anchors receive the formatted entries zero, one and two. -/
theorem claim10_first_three_contacts (env : Env) (debug : Bool) (data : IntakeData)
    (p0 : Page) (rest : List Page)
    (h : env.fetchRaw "/templates/4_Release_of_Information.pdf" = .success (.pdf (p0 :: rest))) :
    (fillReleaseInfoWithTemplate env debug data
        = fillReleaseInfoWithTemplate env debug
            { data with authorizedContacts := data.authorizedContacts.take 3 })
      ∧ (∀ i, data.authorizedContacts.length ≤ i →
          fmt (data.authorizedContacts.getD i {}) = "|  |")
      ∧ (∃ q, fillReleaseInfoWithTemplate env debug data = .ok (some (.pdf (q :: rest)))
        ∧ textAt q 50 540 = textAt p0 50 540 ++ [fmt (data.authorizedContacts.getD 0 {})]
        ∧ textAt q 50 524 = textAt p0 50 524 ++ [fmt (data.authorizedContacts.getD 1 {})]
        ∧ textAt q 50 508 = textAt p0 50 508 ++ [fmt (data.authorizedContacts.getD 2 {})]) := by
  have hft : fetchTemplate env "/templates/4_Release_of_Information.pdf"
      = some (.pdf (p0 :: rest)) := by
    simp [fetchTemplate, h]
  refine ⟨?_, ?_, ?_⟩
  · simp only [fillReleaseInfoWithTemplate]
    rw [hft]
    simp
  · intro i hi
    rw [List.getD_eq_default _ _ hi]
    decide
  · unfold fillReleaseInfoWithTemplate
    rw [hft]
    refine ⟨_, rfl, ?_, ?_, ?_⟩ <;>
      norm_num [textAt_drawText, textAt_check, textAt_sigblock, textAt_drawBox,
        textAt_drawImage, MAP_ROI]

/-- Claim C10, witness on a single-contact list: the second and third
slots render the empty-contact separator string. -/
theorem claim10_witness :
    (fillReleaseInfoWithTemplate envAll false dataJohn
        = fillReleaseInfoWithTemplate envAll false
            { dataJohn with authorizedContacts := dataJohn.authorizedContacts.take 3 })
      ∧ (∀ i, dataJohn.authorizedContacts.length ≤ i →
          fmt (dataJohn.authorizedContacts.getD i {}) = "|  |")
      ∧ (∃ q, fillReleaseInfoWithTemplate envAll false dataJohn = .ok (some (.pdf [q]))
        ∧ textAt q 50 540 = textAt [] 50 540 ++ [fmt (dataJohn.authorizedContacts.getD 0 {})]
        ∧ textAt q 50 524 = textAt [] 50 524 ++ [fmt (dataJohn.authorizedContacts.getD 1 {})]
        ∧ textAt q 50 508 = textAt [] 50 508 ++ [fmt (dataJohn.authorizedContacts.getD 2 {})]) :=
  claim10_first_three_contacts envAll false dataJohn [] [] rfl

end PMG
